import Mathlib

/-!
Shallow embedding of the WiseFlix Telegram bot (src/WiseFlix.py) for checking
its specification.

Modelling conventions:
* Timestamps (`datetime.now()`, `date_added`, `last_refresh`) are integers
  counting seconds; `timedelta(minutes=10)` is `600` and the rate limiter's
  60-second window is `60`.
* TMDb vote-average thresholds (floats `6.0`, `5.0`, `4.5`, `0.5` in the
  source) are integers counting tenths of a rating point (`60`, `50`, `45`,
  `5`); all values occurring in the program are exact multiples of `0.1`,
  so this rescaling is faithful.
* The remote TMDb API is a parameter `api : Request → Option (List TMDbItem)`:
  `none` models a non-200 HTTP status, `some rs` a 200 response with result
  list `rs`.  The credential, `region=US` and language parameters are
  constants shared by every request and are omitted from `Request`.
* `random.choices` / `random.randint` for the sort strategy and page are
  modelled as explicit arguments; `random.shuffle` is a parameter
  `shuffle : List TMDbItem → List TMDbItem` (assumed to permute its input
  where a claim needs it).
* The sqlite tables are lists of rows; `INSERT` with a duplicate primary key
  raising `IntegrityError` is modelled by an explicit key check, and
  `ORDER BY date_added DESC` by `mergeSort` with the corresponding comparator.
-/

namespace WiseFlix

/-- `'movie'` / `'tv'` content types used throughout the bot. -/
inductive ContentType where
  | movie
  | tv
deriving DecidableEq

/-- A catalog item as returned by TMDb; only the fields the verified logic
inspects are kept (`id`, and the `adult` restricted-content flag read by
`item.get('adult', False)`). -/
structure TMDbItem where
  id : Nat
  adult : Bool
deriving DecidableEq

/-! ### Navigation index wraparound (`display_random_content`, lines 600-604)

```
if index < 0:
    index = len(items) - 1
else:
    index = index % len(items)
```
-/

/-- The index normalisation at the top of `display_random_content`. -/
def wrapIndex (n : Nat) (index : Int) : Nat :=
  if index < 0 then n - 1 else (index % (n : Int)).toNat

/-- A navigation button press: `random_next:{index+1}` or `random_prev:{index-1}`. -/
inductive NavOp where
  | next
  | prev
deriving DecidableEq

/-- One navigation step: from displayed index `c` the Next button carries the
payload `index+1` and the Previous button carries `index-1`; the handler feeds
that integer to the wraparound normalisation. -/
def navStep (n : Nat) (c : Nat) : NavOp → Nat
  | NavOp.next => wrapIndex n ((c : Int) + 1)
  | NavOp.prev => wrapIndex n ((c : Int) - 1)

/-- The stored `current_index` after a sequence of next/previous presses. -/
def navigate (n : Nat) (start : Nat) (ops : List NavOp) : Nat :=
  ops.foldl (navStep n) start

/-! ### Recommendation engine (`get_quality_content`, lines 437-511) -/

/-- The three weighted sort strategies of `sort_options`. -/
inductive SortBy where
  | vote_average_desc
  | popularity_desc
  | release_date_desc
deriving DecidableEq

/-- The `filters` dict built by `get_quality_content`.  `vote_count_gte` and
`vote_average_gte` model `'vote_count.gte'` / `'vote_average.gte'` (the latter
in tenths of a point); `release_date_gte` models the
`'primary_release_date.gte'`/`'first_air_date.gte'` entry; `min_rating` /
`min_votes` model the `'min_rating'`/`'min_votes'` keys that
`GENRE_ADJUSTMENTS` merges into the dict; `with_genres` models
`'with_genres'`.  Absent dict keys are `none`. -/
structure Filters where
  vote_count_gte : Int
  vote_average_gte : Int
  release_date_gte : String
  min_rating : Option Int
  min_votes : Option Int
  with_genres : Option Nat
deriving DecidableEq

/-- One HTTP query issued by `get_quality_content`: the endpoint
(`discover/{type}` when a genre is given, `{type}/top_rated` otherwise),
the `base_params` sort and page, and the filter parameters. -/
structure Request where
  discover : Bool
  content_type : ContentType
  sort_by : SortBy
  page : Nat
  filters : Filters
deriving DecidableEq

/-- `RARE_GENRES = {99, 10770, 10763, 10764, 10767}` (line 94):
Documentary, TV Movie, News, Reality, Talk. -/
def RARE_GENRES : List Nat := [99, 10770, 10763, 10764, 10767]

/-- `GENRE_ADJUSTMENTS` (lines 97-104): per-genre `min_rating` (tenths) and
`min_votes` values. -/
def GENRE_ADJUSTMENTS : Nat → Option (Int × Int)
  | 99 => some (50, 50)
  | 16 => some (60, 100)
  | 10770 => some (45, 50)
  | 10763 => some (40, 30)
  | 10764 => some (40, 30)
  | 10767 => some (40, 30)
  | _ => none

/-- Python truthiness of the optional `genre_id` argument (`if genre_id:`). -/
def truthy : Option Nat → Bool
  | none => false
  | some g => g != 0

/-- The per-content-type base `filters` dict (lines 455-468). -/
def base_filters : ContentType → Filters
  | ContentType.movie =>
      { vote_count_gte := 100, vote_average_gte := 60,
        release_date_gte := "2000-01-01",
        min_rating := none, min_votes := none, with_genres := none }
  | ContentType.tv =>
      { vote_count_gte := 50, vote_average_gte := 60,
        release_date_gte := "2010-01-01",
        min_rating := none, min_votes := none, with_genres := none }

/-- The `filters` dict after the genre-adjustment merge (lines 470-476):
`filters.update(GENRE_ADJUSTMENTS[genre_id])` adds the `min_rating` /
`min_votes` keys, and `filters['with_genres'] = genre_id` is set whenever a
genre is specified. -/
def build_filters (content_type : ContentType) (genre_id : Option Nat) : Filters :=
  let f := base_filters content_type
  let f :=
    if truthy genre_id then
      match genre_id with
      | some g =>
          match GENRE_ADJUSTMENTS g with
          | some rv => { f with min_rating := some rv.1, min_votes := some rv.2 }
          | none => f
      | none => f
    else f
  if truthy genre_id then { f with with_genres := genre_id } else f

/-- `min_results = 3 if genre_id in RARE_GENRES else 8` (line 490). -/
def min_results (genre_id : Option Nat) : Nat :=
  match genre_id with
  | some g => if g ∈ RARE_GENRES then 3 else 8
  | none => 8

/-- The relaxed `fallback_params` (lines 492-496): vote-count floor lowered by
20 but capped at `≥ 30`, rating floor lowered by 0.5 (5 tenths) but capped at
`≥ 5.0` (50 tenths). -/
def relax_filters (f : Filters) : Filters :=
  { f with
    vote_count_gte := max 30 (f.vote_count_gte - 20),
    vote_average_gte := max 50 (f.vote_average_gte - 5) }

/-- The first query issued by `get_quality_content`. -/
def primary_request (content_type : ContentType) (genre_id : Option Nat)
    (chosen_sort : SortBy) (page : Nat) : Request :=
  { discover := truthy genre_id, content_type := content_type,
    sort_by := chosen_sort, page := page,
    filters := build_filters content_type genre_id }

/-- The single fallback query: same endpoint and `base_params`, relaxed
filters. -/
def fallback_request (content_type : ContentType) (genre_id : Option Nat)
    (chosen_sort : SortBy) (page : Nat) : Request :=
  { primary_request content_type genre_id chosen_sort page with
    filters := relax_filters (build_filters content_type genre_id) }

/-- `get_quality_content` (lines 437-511), instrumented: the second component
records the HTTP requests issued, in order.  A `none` API answer is a non-200
status (the function logs and returns `[]`). -/
def get_quality_content_run (api : Request → Option (List TMDbItem))
    (content_type : ContentType) (genre_id : Option Nat)
    (chosen_sort : SortBy) (page : Nat) : List TMDbItem × List Request :=
  let primary := primary_request content_type genre_id chosen_sort page
  match api primary with
  | none => ([], [primary])
  | some results =>
    if results.length < min_results genre_id then
      let fallback := fallback_request content_type genre_id chosen_sort page
      match api fallback with
      | none => ([], [primary, fallback])
      | some fb => (fb.filter (fun item => !item.adult), [primary, fallback])
    else
      (results.filter (fun item => !item.adult), [primary])

/-- The result list returned by `get_quality_content`. -/
def get_quality_content (api : Request → Option (List TMDbItem))
    (content_type : ContentType) (genre_id : Option Nat)
    (chosen_sort : SortBy) (page : Nat) : List TMDbItem :=
  (get_quality_content_run api content_type genre_id chosen_sort page).1

/-- The requests issued by one call of `get_quality_content`. -/
def queries_issued (api : Request → Option (List TMDbItem))
    (content_type : ContentType) (genre_id : Option Nat)
    (chosen_sort : SortBy) (page : Nat) : List Request :=
  (get_quality_content_run api content_type genre_id chosen_sort page).2

/-! ### Browse sessions (`get_random_content` lines 548-584,
`display_random_content` lines 587-608, `handle_trending` lines 966-991) -/

/-- The `'source'` field stored in `context.user_data['random_session']`. -/
inductive SourceKind where
  | random
  | genre
  | trending
deriving DecidableEq

/-- The `random_session` dict stored in `context.user_data`.  `genre_id`
models `session.get('genre_id')` (trending sessions store no such key, hence
`none`); `last_refresh` is the stored ISO timestamp, in seconds. -/
structure Session where
  items : List TMDbItem
  content_type : ContentType
  genre_id : Option Nat
  source : SourceKind
  current_index : Nat
  last_refresh : Int
deriving DecidableEq

/-- `timedelta(minutes=10)` in seconds. -/
def STALE_SECONDS : Int := 600

/-- `get_random_content` (lines 548-584): fetch via `get_quality_content`
(abstracted to `fetch`), and on a non-empty result shuffle, truncate to 20
and store a new session with `current_index = 0`; on an empty result the
"no results" view is shown and the stored session is left as it was. -/
def get_random_content (shuffle : List TMDbItem → List TMDbItem)
    (fetch : ContentType → Option Nat → List TMDbItem)
    (now : Int) (state : Option Session)
    (content_type : ContentType) (genre_id : Option Nat) : Option Session :=
  let results := fetch content_type genre_id
  if results.isEmpty then state
  else
    some { items := (shuffle results).take 20,
           content_type := content_type,
           genre_id := genre_id,
           source := if truthy genre_id then SourceKind.genre else SourceKind.random,
           current_index := 0,
           last_refresh := now }

/-- `display_random_content` (lines 587-608), up to its stored-session effect.
A missing session (`user_data.get('random_session', {})`) behaves as an empty
item list with `content_type` defaulting to `'movie'` and no `genre_id`; a
session that is empty or older than ten minutes is refetched with the same
`content_type`/`genre_id`; otherwise the index argument is wrapped and stored
as `current_index`. -/
def display_random_content (shuffle : List TMDbItem → List TMDbItem)
    (fetch : ContentType → Option Nat → List TMDbItem)
    (now : Int) (state : Option Session) (index : Int) : Option Session :=
  match state with
  | none => get_random_content shuffle fetch now none ContentType.movie none
  | some s =>
    if s.items.isEmpty || decide (STALE_SECONDS < now - s.last_refresh) then
      get_random_content shuffle fetch now (some s) s.content_type s.genre_id
    else
      some { s with current_index := wrapIndex s.items.length index }

/-- `handle_trending` (lines 966-991): `trending_response` is the TMDb answer
(`none` for a non-200 status).  A non-empty result list is truncated to the
top 20 (no shuffle) and stored with `current_index = 0`; otherwise the stored
session is left as it was. -/
def handle_trending (now : Int) (state : Option Session)
    (content_type : ContentType)
    (trending_response : Option (List TMDbItem)) : Option Session :=
  match trending_response with
  | none => state
  | some results =>
    if results.isEmpty then state
    else
      some { items := results.take 20,
             content_type := content_type,
             genre_id := none,
             source := SourceKind.trending,
             current_index := 0,
             last_refresh := now }

/-! ### Watchlist / favorites storage (`Database`, lines 155-229, and
`_show_list`, lines 828-887) -/

/-- One row of the `watchlists` / `favorites` tables (primary key
`(user_id, content_type, item_id)`); `date_added` is the insertion
timestamp in seconds. -/
structure Entry where
  user_id : String
  content_type : String
  item_id : String
  title : String
  poster_path : Option String
  date_added : Int
deriving DecidableEq

/-- Primary-key equality test for a row against `(user_id, content_type,
item_id)`. -/
def entry_key_matches (r : Entry) (user_id content_type item_id : String) : Bool :=
  r.user_id == user_id && r.content_type == content_type && r.item_id == item_id

/-- `Database.add_to_watchlist` (lines 172-182): `INSERT` succeeds and commits
unless the primary key already exists, in which case `sqlite3.IntegrityError`
is caught and `False` returned with the table unchanged.
`Database.add_to_favorites` (lines 210-220) is the same code on the other
table, so both are modelled by this one table operation. -/
def add_entry (table : List Entry)
    (user_id content_type item_id title : String)
    (poster_path : Option String) (now : Int) : List Entry × Bool :=
  if table.any (fun r => entry_key_matches r user_id content_type item_id) then
    (table, false)
  else
    (table ++ [{ user_id := user_id, content_type := content_type,
                 item_id := item_id, title := title,
                 poster_path := poster_path, date_added := now }], true)

/-- `Database.remove_from_watchlist` / `remove_from_favorites` (lines 184-191,
222-229): `DELETE` by primary key; the returned Bool is `cursor.rowcount > 0`. -/
def remove_entry (table : List Entry)
    (user_id content_type item_id : String) : List Entry × Bool :=
  let kept := table.filter (fun r => !entry_key_matches r user_id content_type item_id)
  (kept, kept.length < table.length)

/-- `Database.get_watchlist` / `get_favorites` (lines 155-165, 193-203):
`SELECT * ... WHERE user_id = ? ORDER BY date_added DESC`, with
`LIMIT ? OFFSET ?` appended exactly when a limit is passed. -/
def get_watchlist (table : List Entry) (user_id : String)
    (offset : Nat) (limit : Option Nat) : List Entry :=
  let rows := (table.filter (fun r => r.user_id == user_id)).mergeSort
      (fun a b => decide (b.date_added ≤ a.date_added))
  match limit with
  | none => rows
  | some lim => (rows.drop offset).take lim

/-- `Database.get_watchlist_count` / `get_favorites_count` (lines 167-170,
205-208): `SELECT COUNT(*) ... WHERE user_id = ?`. -/
def get_watchlist_count (table : List Entry) (user_id : String) : Nat :=
  (table.filter (fun r => r.user_id == user_id)).length

/-- The view rendered by `_show_list`: either the empty-collection message
with browse buttons, or a page listing with the displayed page number, the
total page count and the listed rows. -/
inductive ListView where
  | emptyView
  | pageView (page : Nat) (total_pages : Nat) (entries : List Entry)
deriving DecidableEq

/-- `_show_list` (lines 828-887): fetch the count, fetch the rows for the
*requested* page (`offset=(page-1)*5, limit=5`), then clamp the page number,
and render the empty view whenever the fetched row list is empty. -/
def show_list (table : List Entry) (user_id : String) (page : Nat) : ListView :=
  let items_per_page := 5
  let total_count := get_watchlist_count table user_id
  let items := get_watchlist table user_id ((page - 1) * items_per_page) (some items_per_page)
  let total_pages := (total_count + items_per_page - 1) / items_per_page
  let page := max 1 (min page total_pages)
  if items.isEmpty then ListView.emptyView
  else ListView.pageView page total_pages items

/-! ### Notification preferences (`Database.get_notification_settings` /
`update_notification_settings`, lines 231-264, and the handlers at
lines 1020-1074) -/

/-- One row of the `notifications` table (primary key `user_id`). -/
structure NotificationSettings where
  user_id : String
  enabled : Bool
  frequency : String
  content_type : String
deriving DecidableEq

/-- The defaults used when no record exists:
`{'enabled': False, 'frequency': 'weekly', 'content_type': 'both'}`. -/
def default_settings (user_id : String) : NotificationSettings :=
  { user_id := user_id, enabled := false, frequency := "weekly", content_type := "both" }

/-- `Database.get_notification_settings` (lines 231-242). -/
def get_notification_settings (table : List NotificationSettings)
    (user_id : String) : Option NotificationSettings :=
  table.find? (fun r => r.user_id == user_id)

/-- `Database.update_notification_settings` (lines 244-264): read the current
row (or the defaults), overwrite exactly the fields passed as non-`None`, and
`INSERT OR REPLACE` the row. -/
def update_notification_settings (table : List NotificationSettings)
    (user_id : String) (enabled : Option Bool)
    (frequency : Option String) (content_type : Option String) :
    List NotificationSettings :=
  let current := (get_notification_settings table user_id).getD (default_settings user_id)
  let updated : NotificationSettings :=
    { user_id := user_id,
      enabled := enabled.getD current.enabled,
      frequency := frequency.getD current.frequency,
      content_type := content_type.getD current.content_type }
  if table.any (fun r => r.user_id == user_id) then
    table.map (fun r => if r.user_id == user_id then updated else r)
  else
    table ++ [updated]

/-- `toggle_notifications` (lines 1020-1034): flip `enabled`, passing only
that field to the upsert. -/
def toggle_notifications (table : List NotificationSettings)
    (user_id : String) : List NotificationSettings :=
  let settings := (get_notification_settings table user_id).getD (default_settings user_id)
  update_notification_settings table user_id (some (!settings.enabled)) none none

/-- `set_frequency` (lines 1049-1054): pass only `frequency` to the upsert. -/
def set_frequency (table : List NotificationSettings)
    (user_id : String) (frequency : String) : List NotificationSettings :=
  update_notification_settings table user_id none (some frequency) none

/-- `set_content_type` (lines 1069-1074): pass only `content_type` to the
upsert. -/
def set_content_type (table : List NotificationSettings)
    (user_id : String) (content_type : String) : List NotificationSettings :=
  update_notification_settings table user_id none none (some content_type)

/-! ### Rate limiter (`RateLimiter`, lines 280-298, and `button`,
lines 304-316) -/

/-- The `RateLimiter` object: `user_activity` is the
`defaultdict(list)` of per-user timestamp lists; `max_requests=15`,
`per_seconds=60` are the constructor defaults. -/
structure RateLimiter where
  user_activity : String → List Int
  max_requests : Nat
  per_seconds : Int

/-- `rate_limiter = RateLimiter()` at startup (line 301). -/
def RateLimiter.start : RateLimiter :=
  { user_activity := fun _ => [], max_requests := 15, per_seconds := 60 }

/-- `RateLimiter.check_rate_limit` (lines 286-298): drop timestamps at least
`per_seconds` old, refuse when at least `max_requests` remain, otherwise
record the current timestamp and allow. -/
def check_rate_limit (rl : RateLimiter) (user_id : String) (now : Int) :
    Bool × RateLimiter :=
  let recent := (rl.user_activity user_id).filter (fun t => decide (now - t < rl.per_seconds))
  if rl.max_requests ≤ recent.length then
    (false,
     { rl with user_activity := fun v => if v == user_id then recent else rl.user_activity v })
  else
    (true,
     { rl with user_activity := fun v => if v == user_id then recent ++ [now]
                                         else rl.user_activity v })

/-- The `button` handler's rate-limited dispatch loop (lines 304-316) over a
sequence of button presses `(user_id, timestamp)`, with the limiter enabled:
a refused press is answered with an alert and dispatches nothing; an allowed
press is dispatched.  Returns the final limiter state and the dispatched
presses in order. -/
def process_buttons (rl : RateLimiter) :
    List (String × Int) → RateLimiter × List (String × Int)
  | [] => (rl, [])
  | (u, t) :: rest =>
    let step := check_rate_limit rl u t
    let restRun := process_buttons step.2 rest
    (restRun.1, if step.1 then (u, t) :: restRun.2 else restRun.2)

/-- The number of dispatched presses of user `u` inside the sliding 60-second
window `(w - 60, w]`. -/
def window_count (dispatched : List (String × Int)) (u : String) (w : Int) : Nat :=
  (dispatched.filter
    (fun p => p.1 == u && decide (w - p.2 < 60) && decide (p.2 ≤ w))).length

/-! ## C1 -/

lemma wrapIndex_lt (n : Nat) (hn : 0 < n) (i : Int) : wrapIndex n i < n := by
  unfold wrapIndex
  split
  · exact Nat.sub_lt hn Nat.one_pos
  · have hn' : (0 : Int) < (n : Int) := by exact_mod_cast hn
    have h0 : 0 ≤ i % (n : Int) := Int.emod_nonneg i (by omega)
    exact (Int.toNat_lt h0).mpr (Int.emod_lt_of_pos i hn')

lemma navStep_lt (n : Nat) (hn : 0 < n) (c : Nat) (op : NavOp) :
    navStep n c op < n := by
  cases op <;> exact wrapIndex_lt n hn _

lemma navigate_lt (n : Nat) (hn : 0 < n) :
    ∀ (ops : List NavOp) (start : Nat), start < n → navigate n start ops < n := by
  intro ops
  induction ops with
  | nil => intro start h; exact h
  | cons op rest ih =>
    intro start _
    exact ih (navStep n start op) (navStep_lt n hn start op)

lemma navStep_next_eq (n c : Nat) : navStep n c NavOp.next = (c + 1) % n := by
  show wrapIndex n ((c : Int) + 1) = (c + 1) % n
  unfold wrapIndex
  rw [if_neg (by omega : ¬ ((c : Int) + 1 < 0))]
  have h : ((c : Int) + 1) % (n : Int) = (((c + 1) % n : Nat) : Int) := by
    push_cast
    ring_nf
  rw [h, Int.toNat_natCast]

/-- C1: for an active session with a non-empty item list, after any sequence
of next/previous presses the stored `current_index` stays in
`[0, len(items))`: Next feeds `index + 1`, which is reduced modulo the list
length, Previous from index 0 feeds `-1`, which wraps to `len(items) - 1`;
in particular navigating Previous three times from index 0 over 5 items ends
at index 2. -/
theorem c1_currentIndex_wraparound (n : Nat) (hn : 0 < n) (ops : List NavOp) :
    navigate n 0 ops < n
    ∧ (∀ c : Nat, navStep n c NavOp.next = (c + 1) % n)
    ∧ navStep n 0 NavOp.prev = n - 1
    ∧ navigate 5 0 [NavOp.prev, NavOp.prev, NavOp.prev] = 2 := by
  refine ⟨navigate_lt n hn ops 0 hn, fun c => navStep_next_eq n c, ?_, by decide⟩
  show wrapIndex n ((0 : Nat) - 1 : Int) = n - 1
  unfold wrapIndex
  norm_num

/-- Witness for `c1_currentIndex_wraparound` at `n = 5` and the three-press
Previous sequence. -/
theorem c1_currentIndex_wraparound_witness :
    navigate 5 0 [NavOp.prev, NavOp.prev, NavOp.prev] < 5
    ∧ navigate 5 0 [NavOp.prev, NavOp.prev, NavOp.prev] = 2 :=
  ⟨(c1_currentIndex_wraparound 5 (by decide) [NavOp.prev, NavOp.prev, NavOp.prev]).1,
   (c1_currentIndex_wraparound 5 (by decide) []).2.2.2⟩

/-! ## C2 -/

/-- C2, as the code violates it: the claim counts Animation (genre 16) among
the rare genres with minimum acceptable result count 3, but `RARE_GENRES`
does not contain 16 (Animation only has a `GENRE_ADJUSTMENTS` entry), so
`get_quality_content` uses minimum 8 for it: with a primary query for genre
16 returning exactly 3 results the claim predicts no fallback, yet the code
issues one (2 queries). -/
theorem c2_rare_genre_minimum_counterexample :
    min_results (some 16) ≠ 3
    ∧ (queries_issued
        (fun _ => some [⟨1, false⟩, ⟨2, false⟩, ⟨3, false⟩])
        ContentType.movie (some 16) SortBy.vote_average_desc 1).length = 2 := by
  constructor
  · decide
  · rfl

/-- C2 (amended): the rare-genre set with minimum acceptable primary result
count 3 is the code's `RARE_GENRES` — documentaries, TV-movies, news,
reality, talk shows, but *not* animation; every other query (animation,
another genre, or no genre) uses minimum 8, and the one fallback query is
issued if and only if the primary query succeeds and returns fewer results
than that minimum. -/
theorem c2_rare_genre_minimum (api : Request → Option (List TMDbItem))
    (content_type : ContentType) (genre_id : Option Nat)
    (chosen_sort : SortBy) (page : Nat) :
    (∀ g ∈ RARE_GENRES, min_results (some g) = 3)
    ∧ (∀ g : Nat, g ∉ RARE_GENRES → min_results (some g) = 8)
    ∧ min_results none = 8
    ∧ ((queries_issued api content_type genre_id chosen_sort page).length = 2 ↔
        ∃ rs, api (primary_request content_type genre_id chosen_sort page) = some rs
          ∧ rs.length < min_results genre_id) := by
  refine ⟨?_, ?_, rfl, ?_⟩
  · intro g hg
    simp only [RARE_GENRES, List.mem_cons, List.not_mem_nil, or_false] at hg
    rcases hg with rfl | rfl | rfl | rfl | rfl <;> decide
  · intro g hg
    simp [min_results, hg]
  · unfold queries_issued get_quality_content_run
    cases hapi : api (primary_request content_type genre_id chosen_sort page) with
    | none => simp [hapi]
    | some results =>
      by_cases hlen : results.length < min_results genre_id
      · simp only [hapi, hlen, if_pos]
        cases api (fallback_request content_type genre_id chosen_sort page) <;>
          simp [hlen]
      · simp [hapi, hlen]

/-- Witness for `c2_rare_genre_minimum`: Documentary (99) gets minimum 3,
Action (28) gets 8, and with a primary query succeeding with zero results a
fallback query is issued (2 queries total). -/
theorem c2_rare_genre_minimum_witness :
    min_results (some 99) = 3
    ∧ min_results (some 28) = 8
    ∧ (queries_issued (fun _ => some ([] : List TMDbItem))
        ContentType.movie none SortBy.popularity_desc 1).length = 2 :=
  ⟨(c2_rare_genre_minimum (fun _ => some []) ContentType.movie none
      SortBy.popularity_desc 1).1 99 (by decide),
   (c2_rare_genre_minimum (fun _ => some []) ContentType.movie none
      SortBy.popularity_desc 1).2.1 28 (by decide),
   (c2_rare_genre_minimum (fun _ => some []) ContentType.movie none
      SortBy.popularity_desc 1).2.2.2.mpr ⟨[], rfl, by decide⟩⟩

/-! ## C3 -/

/-- C3: when the primary query succeeds with fewer results than the minimum,
exactly one fallback query is issued, with vote-count threshold
`max(30, primary - 20)` and rating threshold `max(5.0, primary - 0.5)`
(tenths: `max 50 (primary - 5)`), and its result set — restricted-content
filtered — is returned as is, even if still below the minimum, with no
further retries (a failed fallback returns `[]`). -/
theorem c3_fallback_relaxation (api : Request → Option (List TMDbItem))
    (content_type : ContentType) (genre_id : Option Nat)
    (chosen_sort : SortBy) (page : Nat) (rs : List TMDbItem)
    (hapi : api (primary_request content_type genre_id chosen_sort page) = some rs)
    (hlow : rs.length < min_results genre_id) :
    (fallback_request content_type genre_id chosen_sort page).filters.vote_count_gte
        = max 30 ((primary_request content_type genre_id chosen_sort page).filters.vote_count_gte - 20)
    ∧ (fallback_request content_type genre_id chosen_sort page).filters.vote_average_gte
        = max 50 ((primary_request content_type genre_id chosen_sort page).filters.vote_average_gte - 5)
    ∧ queries_issued api content_type genre_id chosen_sort page
        = [primary_request content_type genre_id chosen_sort page,
           fallback_request content_type genre_id chosen_sort page]
    ∧ (∀ fb, api (fallback_request content_type genre_id chosen_sort page) = some fb →
        get_quality_content api content_type genre_id chosen_sort page
          = fb.filter (fun item => !item.adult))
    ∧ (api (fallback_request content_type genre_id chosen_sort page) = none →
        get_quality_content api content_type genre_id chosen_sort page = []) := by
  refine ⟨rfl, rfl, ?_, ?_, ?_⟩
  · unfold queries_issued get_quality_content_run
    dsimp only
    rw [hapi]
    simp only [hlow, if_pos]
    cases api (fallback_request content_type genre_id chosen_sort page) <;> rfl
  · intro fb hfb
    unfold get_quality_content get_quality_content_run
    dsimp only
    rw [hapi]
    simp only [hlow, if_pos]
    rw [hfb]
  · intro hfb
    unfold get_quality_content get_quality_content_run
    dsimp only
    rw [hapi]
    simp only [hlow, if_pos]
    rw [hfb]

/-- Witness for `c3_fallback_relaxation`: an API answering every query with
one adult and one non-adult item; the primary result (2 < 8) triggers the
fallback, whose filtered results are returned. -/
theorem c3_fallback_relaxation_witness :
    queries_issued (fun _ => some [⟨1, true⟩, ⟨2, false⟩])
        ContentType.movie none SortBy.vote_average_desc 3
      = [primary_request ContentType.movie none SortBy.vote_average_desc 3,
         fallback_request ContentType.movie none SortBy.vote_average_desc 3]
    ∧ get_quality_content (fun _ => some [⟨1, true⟩, ⟨2, false⟩])
        ContentType.movie none SortBy.vote_average_desc 3
      = ([⟨1, true⟩, ⟨2, false⟩] : List TMDbItem).filter (fun item => !item.adult) :=
  ⟨(c3_fallback_relaxation (fun _ => some [⟨1, true⟩, ⟨2, false⟩])
      ContentType.movie none SortBy.vote_average_desc 3
      [⟨1, true⟩, ⟨2, false⟩] rfl (by decide)).2.2.1,
   (c3_fallback_relaxation (fun _ => some [⟨1, true⟩, ⟨2, false⟩])
      ContentType.movie none SortBy.vote_average_desc 3
      [⟨1, true⟩, ⟨2, false⟩] rfl (by decide)).2.2.2.1
      [⟨1, true⟩, ⟨2, false⟩] rfl⟩

/-! ## C4 -/

/-- C4: every item returned by `get_quality_content` has its
restricted-content (`adult`) flag false, whether the returned set came from
the primary or from the fallback query. -/
theorem c4_no_restricted_content (api : Request → Option (List TMDbItem))
    (content_type : ContentType) (genre_id : Option Nat)
    (chosen_sort : SortBy) (page : Nat) (item : TMDbItem)
    (hmem : item ∈ get_quality_content api content_type genre_id chosen_sort page) :
    item.adult = false := by
  unfold get_quality_content get_quality_content_run at hmem
  dsimp only at hmem
  cases hapi : api (primary_request content_type genre_id chosen_sort page) with
  | none => rw [hapi] at hmem; simp at hmem
  | some results =>
    rw [hapi] at hmem
    by_cases hlen : results.length < min_results genre_id
    · simp only [hlen, if_pos] at hmem
      cases hfb : api (fallback_request content_type genre_id chosen_sort page) with
      | none => rw [hfb] at hmem; simp at hmem
      | some fb =>
        rw [hfb] at hmem
        simp only [List.mem_filter, Bool.not_eq_true'] at hmem
        exact hmem.2
    · simp only [hlen, if_neg, if_false] at hmem
      simp only [List.mem_filter, Bool.not_eq_true'] at hmem
      exact hmem.2

/-- Witness for `c4_no_restricted_content` on a concrete API response. -/
theorem c4_no_restricted_content_witness :
    (⟨2, false⟩ : TMDbItem).adult = false :=
  c4_no_restricted_content (fun _ => some [⟨1, true⟩, ⟨2, false⟩])
    ContentType.movie none SortBy.vote_average_desc 1 ⟨2, false⟩ (by decide)

/-! ## C5 -/

/-- C5: a display request on a session whose item list is empty or whose
timestamp is more than ten minutes old discards the old item list and
refetches with the same `content_type` and `genre_id`; when the fetch is
non-empty this produces a session holding the freshly fetched (shuffled,
truncated) items with `last_refresh = now` and `current_index = 0`.  A
display request at `last_refresh + 660` seconds (11 minutes) satisfies the
staleness condition `600 < now - last_refresh`. -/
theorem c5_stale_session_refetch (shuffle : List TMDbItem → List TMDbItem)
    (fetch : ContentType → Option Nat → List TMDbItem)
    (s : Session) (now index : Int)
    (hstale : s.items = [] ∨ STALE_SECONDS < now - s.last_refresh)
    (hfetch : fetch s.content_type s.genre_id ≠ []) :
    display_random_content shuffle fetch now (some s) index =
      some { items := (shuffle (fetch s.content_type s.genre_id)).take 20,
             content_type := s.content_type,
             genre_id := s.genre_id,
             source := if truthy s.genre_id then SourceKind.genre else SourceKind.random,
             current_index := 0,
             last_refresh := now } := by
  have hcond : (s.items.isEmpty || decide (STALE_SECONDS < now - s.last_refresh)) = true := by
    rcases hstale with h | h
    · simp [h]
    · simp [h]
  unfold display_random_content
  dsimp only
  rw [if_pos hcond]
  unfold get_random_content
  rw [if_neg (by simpa [List.isEmpty_iff] using hfetch)]

/-- Witness for `c5_stale_session_refetch`: a non-empty one-item session
created at time 0 and displayed at time 660 (createdAt + 11 minutes) is
refetched. -/
theorem c5_stale_session_refetch_witness :
    display_random_content id (fun _ _ => [⟨2, false⟩]) 660
        (some { items := [⟨1, false⟩], content_type := ContentType.movie,
                genre_id := none, source := SourceKind.random,
                current_index := 0, last_refresh := 0 }) 0
      = some { items := [⟨2, false⟩], content_type := ContentType.movie,
               genre_id := none, source := SourceKind.random,
               current_index := 0, last_refresh := 660 } :=
  c5_stale_session_refetch id (fun _ _ => [⟨2, false⟩])
    { items := [⟨1, false⟩], content_type := ContentType.movie,
      genre_id := none, source := SourceKind.random,
      current_index := 0, last_refresh := 0 } 660 0
    (Or.inr (by decide)) (by decide)

/-! ## C6 -/

/-- C6: a session created from the absent state by a random/genre request
whose fetch returns a non-empty candidate list stores, as its item list, the
first 20 elements of a permutation of the candidates — a permutation of a
sub-multiset of the fetched candidates — of length at most 20, with
`current_index = 0`; a trending request with a non-empty result list
likewise stores its first 20 elements (the identity permutation of that
prefix), again a sub-multiset of the candidates, with `current_index = 0`. -/
theorem c6_session_creation (shuffle : List TMDbItem → List TMDbItem)
    (fetch : ContentType → Option Nat → List TMDbItem)
    (candidates : List TMDbItem) (content_type : ContentType)
    (genre_id : Option Nat) (now : Int)
    (hperm : (shuffle candidates).Perm candidates)
    (hfetch : fetch content_type genre_id = candidates)
    (hne : candidates ≠ []) :
    (get_random_content shuffle fetch now none content_type genre_id =
        some { items := (shuffle candidates).take 20,
               content_type := content_type, genre_id := genre_id,
               source := if truthy genre_id then SourceKind.genre else SourceKind.random,
               current_index := 0, last_refresh := now }
      ∧ ((shuffle candidates).take 20).Subperm candidates
      ∧ ((shuffle candidates).take 20).length ≤ 20)
    ∧ ∀ trending : List TMDbItem, trending ≠ [] →
        handle_trending now none content_type (some trending) =
            some { items := trending.take 20,
                   content_type := content_type, genre_id := none,
                   source := SourceKind.trending,
                   current_index := 0, last_refresh := now }
          ∧ (trending.take 20).Subperm trending
          ∧ (trending.take 20).length ≤ 20 := by
  constructor
  · refine ⟨?_, ?_, ?_⟩
    · unfold get_random_content
      dsimp only
      rw [hfetch, if_neg (by simpa [List.isEmpty_iff] using hne)]
    · exact ((List.take_sublist 20 (shuffle candidates)).subperm).trans hperm.subperm
    · rw [List.length_take]
      exact min_le_left _ _
  · intro trending hategory
    refine ⟨?_, (List.take_sublist 20 trending).subperm, ?_⟩
    · unfold handle_trending
      dsimp only
      rw [if_neg (by simpa [List.isEmpty_iff] using hategory)]
    · rw [List.length_take]
      exact min_le_left _ _

/-- Witness for `c6_session_creation` with `shuffle = List.reverse` (a
genuine permutation) over a two-item candidate list, and a three-item
trending list. -/
theorem c6_session_creation_witness :
    (get_random_content List.reverse
        (fun _ _ => ([⟨1, false⟩, ⟨2, false⟩] : List TMDbItem)) 7 none
        ContentType.tv (some 35) =
        some { items := (List.reverse ([⟨1, false⟩, ⟨2, false⟩] : List TMDbItem)).take 20,
               content_type := ContentType.tv, genre_id := some 35,
               source := if truthy (some 35) then SourceKind.genre else SourceKind.random,
               current_index := 0, last_refresh := 7 }
      ∧ ((List.reverse ([⟨1, false⟩, ⟨2, false⟩] : List TMDbItem)).take 20).Subperm
          ([⟨1, false⟩, ⟨2, false⟩] : List TMDbItem)
      ∧ ((List.reverse ([⟨1, false⟩, ⟨2, false⟩] : List TMDbItem)).take 20).length ≤ 20)
    ∧ (handle_trending 7 none ContentType.tv
          (some ([⟨3, false⟩, ⟨4, false⟩, ⟨5, false⟩] : List TMDbItem)) =
        some { items := ([⟨3, false⟩, ⟨4, false⟩, ⟨5, false⟩] : List TMDbItem).take 20,
               content_type := ContentType.tv, genre_id := none,
               source := SourceKind.trending, current_index := 0, last_refresh := 7 }
      ∧ (([⟨3, false⟩, ⟨4, false⟩, ⟨5, false⟩] : List TMDbItem).take 20).Subperm
          [⟨3, false⟩, ⟨4, false⟩, ⟨5, false⟩]
      ∧ (([⟨3, false⟩, ⟨4, false⟩, ⟨5, false⟩] : List TMDbItem).take 20).length ≤ 20) :=
  ⟨(c6_session_creation List.reverse
      (fun _ _ => ([⟨1, false⟩, ⟨2, false⟩] : List TMDbItem))
      ([⟨1, false⟩, ⟨2, false⟩] : List TMDbItem) ContentType.tv (some 35) 7
      (List.reverse_perm _) rfl (by decide)).1,
   (c6_session_creation List.reverse
      (fun _ _ => ([⟨1, false⟩, ⟨2, false⟩] : List TMDbItem))
      ([⟨1, false⟩, ⟨2, false⟩] : List TMDbItem) ContentType.tv (some 35) 7
      (List.reverse_perm _) rfl (by decide)).2
      ([⟨3, false⟩, ⟨4, false⟩, ⟨5, false⟩] : List TMDbItem) (by decide)⟩

/-! ## C7 -/

/-- C7: an add to the watchlist or favorites immediately following an add
with the same `(user_id, content_type, item_id)` key returns the
non-inserted outcome `false` — surfaced by the handlers as the
"Already in watchlist" / "Already in favorites" status, not an error — and
leaves the table exactly as the first add left it (`add_to_watchlist` and
`add_to_favorites` are the same row operation `add_entry` on their
respective tables). -/
theorem c7_duplicate_add_idempotent (table : List Entry)
    (user_id content_type item_id title1 title2 : String)
    (poster1 poster2 : Option String) (t1 t2 : Int) :
    add_entry (add_entry table user_id content_type item_id title1 poster1 t1).1
        user_id content_type item_id title2 poster2 t2
      = ((add_entry table user_id content_type item_id title1 poster1 t1).1, false) := by
  by_cases h : (table.any (fun r => entry_key_matches r user_id content_type item_id)) = true
  · simp only [add_entry, h, if_pos, if_true]
  · have hkey : entry_key_matches
        { user_id := user_id, content_type := content_type, item_id := item_id,
          title := title1, poster_path := poster1, date_added := t1 }
        user_id content_type item_id = true := by
      simp [entry_key_matches]
    simp [add_entry, h, hkey]

/-! ## C8 -/

lemma find_map_upsert (u : String) (updated : NotificationSettings)
    (hu : updated.user_id = u) :
    ∀ table : List NotificationSettings,
      table.any (fun r => r.user_id == u) = true →
      (table.map (fun r => if r.user_id == u then updated else r)).find?
          (fun r => r.user_id == u) = some updated := by
  intro table
  induction table with
  | nil => simp
  | cons r rest ih =>
    intro hany
    by_cases hr : (r.user_id == u) = true
    · simp [List.find?, hr, hu]
    · have hrest : rest.any (fun r => r.user_id == u) = true := by
        simpa [List.any_cons, hr] using hany
      simp only [List.map_cons, if_neg hr]
      rw [List.find?_cons]
      have hr' : (r.user_id == u) = false := by simpa using hr
      rw [hr']
      exact ih hrest

lemma get_update_notification (table : List NotificationSettings)
    (u : String) (enabled : Option Bool)
    (frequency : Option String) (content_type : Option String) :
    get_notification_settings
        (update_notification_settings table u enabled frequency content_type) u =
      some { user_id := u,
             enabled :=
               enabled.getD ((get_notification_settings table u).getD (default_settings u)).enabled,
             frequency :=
               frequency.getD ((get_notification_settings table u).getD (default_settings u)).frequency,
             content_type :=
               content_type.getD ((get_notification_settings table u).getD (default_settings u)).content_type } := by
  unfold update_notification_settings
  by_cases h : (table.any (fun r => r.user_id == u)) = true
  · rw [if_pos h]
    exact find_map_upsert u _ rfl table h
  · rw [if_neg h]
    unfold get_notification_settings
    rw [List.find?_append]
    have hnone : table.find? (fun r => r.user_id == u) = none := by
      rw [List.find?_eq_none]
      intro x hx
      intro hxu
      exact h (List.any_eq_true.mpr ⟨x, hx, hxu⟩)
    rw [hnone]
    simp

/-- C8: every notification-preference mutation — toggle, set frequency, set
content type — is an upsert: with no prior record the unspecified fields take
the defaults `enabled = false`, `frequency = weekly`, `content_type = both`
(so the read-back row is built from `default_settings`), and with a prior
record every field the mutation does not name keeps its previous value; in
both cases the stated field is updated from the current (or default) row. -/
theorem c8_preference_upsert (table : List NotificationSettings)
    (u frequency content_type : String) :
    (get_notification_settings (toggle_notifications table u) u =
        some { user_id := u,
               enabled := !((get_notification_settings table u).getD (default_settings u)).enabled,
               frequency := ((get_notification_settings table u).getD (default_settings u)).frequency,
               content_type := ((get_notification_settings table u).getD (default_settings u)).content_type })
    ∧ (get_notification_settings (set_frequency table u frequency) u =
        some { user_id := u,
               enabled := ((get_notification_settings table u).getD (default_settings u)).enabled,
               frequency := frequency,
               content_type := ((get_notification_settings table u).getD (default_settings u)).content_type })
    ∧ (get_notification_settings (set_content_type table u content_type) u =
        some { user_id := u,
               enabled := ((get_notification_settings table u).getD (default_settings u)).enabled,
               frequency := ((get_notification_settings table u).getD (default_settings u)).frequency,
               content_type := content_type }) := by
  refine ⟨?_, ?_, ?_⟩
  · unfold toggle_notifications
    exact get_update_notification table u _ none none
  · exact get_update_notification table u none (some frequency) none
  · exact get_update_notification table u none none (some content_type)

/-! ## C10 -/

/-- C10: a watchlist/favorites page `p` shows exactly the rows at offsets
`(p-1)*5 .. (p-1)*5+4` of the newest-`date_added`-first ordering, fetched
with the *requested* page number before any clamping (the clamped number only
appears in the rendered header); consequently, for a non-empty collection, a
request for a page `p` with `(p-1)*5 ≥ count` fetches zero rows and renders
the empty-collection view instead of the last non-empty page. -/
theorem c10_pagination (table : List Entry) (user_id : String) (page : Nat)
    (_hp : 1 ≤ page) :
    (show_list table user_id page ≠ ListView.emptyView →
      show_list table user_id page =
        ListView.pageView
          (max 1 (min page ((get_watchlist_count table user_id + 5 - 1) / 5)))
          ((get_watchlist_count table user_id + 5 - 1) / 5)
          (get_watchlist table user_id ((page - 1) * 5) (some 5)))
    ∧ (0 < get_watchlist_count table user_id →
        get_watchlist_count table user_id ≤ (page - 1) * 5 →
          get_watchlist table user_id ((page - 1) * 5) (some 5) = []
          ∧ show_list table user_id page = ListView.emptyView) := by
  constructor
  · intro hne
    unfold show_list at hne ⊢
    dsimp only at hne ⊢
    by_cases hempty :
        (get_watchlist table user_id ((page - 1) * 5) (some 5)).isEmpty = true
    · rw [if_pos hempty] at hne
      exact absurd rfl hne
    · rw [if_neg hempty]
  · intro hpos hbeyond
    have hnil : get_watchlist table user_id ((page - 1) * 5) (some 5) = [] := by
      unfold get_watchlist
      dsimp only
      rw [List.drop_eq_nil_of_le]
      · rfl
      · rw [List.length_mergeSort]
        exact hbeyond
    refine ⟨hnil, ?_⟩
    unfold show_list
    dsimp only
    rw [hnil]
    rfl

/-- Witness for `c10_pagination`: one stored row, page 2 requested — zero
rows fetched and the empty view rendered. -/
theorem c10_pagination_witness :
    get_watchlist
        [{ user_id := "u", content_type := "movie", item_id := "603",
           title := "T", poster_path := none, date_added := 0 }] "u" 5 (some 5) = []
    ∧ show_list
        [{ user_id := "u", content_type := "movie", item_id := "603",
           title := "T", poster_path := none, date_added := 0 }] "u" 2
      = ListView.emptyView :=
  (c10_pagination
      [{ user_id := "u", content_type := "movie", item_id := "603",
         title := "T", poster_path := none, date_added := 0 }] "u" 2
      (by decide)).2 (by decide) (by decide)

/-! ## C9 -/

/-- The timestamps of the dispatched presses of user `v`, in order. -/
def user_times (dispatched : List (String × Int)) (v : String) : List Int :=
  (dispatched.filter (fun p => p.1 == v)).map Prod.snd

/-- Every dispatched press in `L` was preceded, among the dispatched presses
of the same user in the 60 seconds before it, by fewer than 15 entries. -/
def SpacedOut (L : List (String × Int)) : Prop :=
  ∀ L1 L2 v t, L = L1 ++ (v, t) :: L2 →
    (L1.filter (fun p => p.1 == v && decide (t - p.2 < 60))).length < 15

lemma spacedOut_nil : SpacedOut [] := by
  intro L1 L2 v t h
  exact absurd h (by simp)

lemma append_singleton_inj {α : Type} {l1 l2 : List α} {a b : α}
    (h : l1 ++ [a] = l2 ++ [b]) : l1 = l2 ∧ a = b := by
  have h2 := List.append_inj' h rfl
  exact ⟨h2.1, by simpa using h2.2⟩

lemma spacedOut_dropLast {L : List (String × Int)} {q : String × Int}
    (h : SpacedOut (L ++ [q])) : SpacedOut L := by
  intro L1 L2 v t heq
  refine h L1 (L2 ++ [q]) v t ?_
  rw [heq]
  simp

lemma spacedOut_snoc {L : List (String × Int)} {u : String} {t : Int}
    (h : SpacedOut L)
    (hb : (L.filter (fun p => p.1 == u && decide (t - p.2 < 60))).length < 15) :
    SpacedOut (L ++ [(u, t)]) := by
  intro L1 L2 v s heq
  rcases List.eq_nil_or_concat L2 with rfl | ⟨L2', q, rfl⟩
  · obtain ⟨hL, hq⟩ := append_singleton_inj heq
    obtain ⟨rfl, rfl⟩ : u = v ∧ t = s := ⟨congrArg Prod.fst hq, congrArg Prod.snd hq⟩
    rw [← hL]
    exact hb
  · have heq' : L ++ [(u, t)] = (L1 ++ (v, s) :: L2') ++ [q] := by
      rw [heq]
      simp [List.concat_eq_append]
    obtain ⟨hL, _⟩ := append_singleton_inj heq'
    exact h L1 L2' v s hL

lemma window_count_le_of_spacedOut :
    ∀ L : List (String × Int), SpacedOut L → ∀ u w, window_count L u w ≤ 15 := by
  intro L
  induction L using List.reverseRecOn with
  | nil => intro _ u w; simp [window_count]
  | append_singleton l p ih =>
    intro h u w
    unfold window_count
    rw [List.filter_append, List.length_append]
    by_cases hp : (p.1 == u && decide (w - p.2 < 60) && decide (p.2 ≤ w)) = true
    · have hp1 : (p.1 == u) = true := by
        have := (Bool.and_eq_true _ _).mp ((Bool.and_eq_true _ _).mp hp).1
        exact this.1
      have hp2 : w - p.2 < 60 :=
        of_decide_eq_true ((Bool.and_eq_true _ _).mp ((Bool.and_eq_true _ _).mp hp).1).2
      have hp3 : p.2 ≤ w := of_decide_eq_true ((Bool.and_eq_true _ _).mp hp).2
      have hbound := h l [] p.1 p.2 (by simp)
      have hmono :
          (l.filter (fun q => q.1 == u && decide (w - q.2 < 60) && decide (q.2 ≤ w))).length
            ≤ (l.filter (fun q => q.1 == p.1 && decide (p.2 - q.2 < 60))).length := by
        rw [← List.countP_eq_length_filter, ← List.countP_eq_length_filter]
        apply List.countP_mono_left
        intro q _ hq
        have hq1 : (q.1 == u) = true := by
          have := (Bool.and_eq_true _ _).mp ((Bool.and_eq_true _ _).mp hq).1
          exact this.1
        have hq2 : w - q.2 < 60 :=
          of_decide_eq_true ((Bool.and_eq_true _ _).mp ((Bool.and_eq_true _ _).mp hq).1).2
        have hq3 : q.2 ≤ w := of_decide_eq_true ((Bool.and_eq_true _ _).mp hq).2
        have hqp : (q.1 == p.1) = true := by
          rw [beq_iff_eq] at hq1 hp1 ⊢
          rw [hq1, hp1]
        rw [hqp]
        have : p.2 - q.2 < 60 := by omega
        simp [this]
      have hone : (List.filter (fun p => p.1 == u && decide (w - p.2 < 60) && decide (p.2 ≤ w)) [p]).length ≤ 1 := by
        simp [List.filter]
        split <;> simp
      omega
    · have hzero :
          (List.filter (fun p => p.1 == u && decide (w - p.2 < 60) && decide (p.2 ≤ w)) [p]).length = 0 := by
        simp [List.filter, hp]
      rw [hzero]
      have := ih (spacedOut_dropLast h) u w
      unfold window_count at this
      omega

lemma user_times_append_self (D : List (String × Int)) (v : String) (t : Int) :
    user_times (D ++ [(v, t)]) v = user_times D v ++ [t] := by
  unfold user_times
  rw [List.filter_append, List.map_append]
  simp [List.filter]

lemma user_times_append_other (D : List (String × Int)) (q : String × Int)
    (v : String) (hq : (q.1 == v) = false) :
    user_times (D ++ [q]) v = user_times D v := by
  unfold user_times
  rw [List.filter_append]
  simp [List.filter, hq]

lemma length_filter_user_window (D : List (String × Int)) (u : String) (t : Int) :
    (D.filter (fun p => p.1 == u && decide (t - p.2 < 60))).length
      = ((user_times D u).filter (fun s => decide (t - s < 60))).length := by
  unfold user_times
  rw [List.filter_map, List.length_map, List.filter_filter]
  apply congrArg
  apply List.filter_congr
  intro p _
  simp only [Function.comp]
  exact Bool.and_comm _ _

lemma window_subperm (D : List (String × Int)) (u : String) (t tau : Int)
    (act : String → List Int) (htau : tau ≤ t)
    (h3 : ∀ v s, tau - s < 60 → (user_times D v).count s ≤ (act v).count s) :
    ((user_times D u).filter (fun s => decide (t - s < 60))).Subperm
      ((act u).filter (fun s => decide (t - s < 60))) := by
  rw [List.subperm_ext_iff]
  intro s hs
  have hs60 : t - s < 60 := of_decide_eq_true (List.mem_filter.mp hs).2
  calc List.count s ((user_times D u).filter (fun x => decide (t - x < 60)))
      ≤ List.count s (user_times D u) := (List.filter_sublist _).count_le s
    _ ≤ List.count s (act u) := h3 u s (by omega)
    _ = List.count s ((act u).filter (fun x => decide (t - x < 60))) :=
        (@List.count_filter Int _ _ (fun x => decide (t - x < 60)) s (act u)
          (decide_eq_true hs60)).symm

lemma check_rate_limit_neg (act : String → List Int) (u : String) (now : Int)
    (h : 15 ≤ ((act u).filter (fun s => decide (now - s < 60))).length) :
    check_rate_limit ⟨act, 15, 60⟩ u now =
      (false,
       ⟨fun v => if v == u then (act u).filter (fun s => decide (now - s < 60)) else act v,
        15, 60⟩) := by
  unfold check_rate_limit
  dsimp only
  rw [if_pos h]

lemma check_rate_limit_pos (act : String → List Int) (u : String) (now : Int)
    (h : ¬ 15 ≤ ((act u).filter (fun s => decide (now - s < 60))).length) :
    check_rate_limit ⟨act, 15, 60⟩ u now =
      (true,
       ⟨fun v => if v == u then (act u).filter (fun s => decide (now - s < 60)) ++ [now]
                 else act v,
        15, 60⟩) := by
  unfold check_rate_limit
  dsimp only
  rw [if_neg h]

lemma process_buttons_cons (rl : RateLimiter) (u : String) (t : Int)
    (rest : List (String × Int)) :
    process_buttons rl ((u, t) :: rest)
      = ((process_buttons (check_rate_limit rl u t).2 rest).1,
         if (check_rate_limit rl u t).1
         then (u, t) :: (process_buttons (check_rate_limit rl u t).2 rest).2
         else (process_buttons (check_rate_limit rl u t).2 rest).2) := rfl

lemma process_spacedOut :
    ∀ (reqs : List (String × Int)) (act : String → List Int)
      (Dprev : List (String × Int)) (tau : Int),
      (∀ p ∈ reqs, tau ≤ p.2) →
      reqs.Pairwise (fun p q => p.2 ≤ q.2) →
      (∀ v s, tau - s < 60 → (user_times Dprev v).count s ≤ (act v).count s) →
      SpacedOut Dprev →
      SpacedOut (Dprev ++ (process_buttons ⟨act, 15, 60⟩ reqs).2) := by
  intro reqs
  induction reqs with
  | nil =>
    intro act Dprev tau _ _ _ h4
    simpa [process_buttons] using h4
  | cons r rest ih =>
    obtain ⟨u, t⟩ := r
    intro act Dprev tau h1 h2 h3 h4
    have htau_t : tau ≤ t := h1 (u, t) (List.mem_cons_self _ _)
    have hrest_ge : ∀ p ∈ rest, t ≤ p.2 := (List.pairwise_cons.mp h2).1
    have hrest_pw := (List.pairwise_cons.mp h2).2
    by_cases hfull : 15 ≤ ((act u).filter (fun s => decide (t - s < 60))).length
    · rw [process_buttons_cons, check_rate_limit_neg act u t hfull]
      apply ih _ Dprev t hrest_ge hrest_pw _ h4
      intro v s hs
      by_cases hv : (v == u) = true
      · have hvu : v = u := beq_iff_eq.mp hv
        rw [if_pos hv,
            @List.count_filter Int _ _ (fun x => decide (t - x < 60)) s (act u)
              (decide_eq_true hs), hvu]
        exact h3 u s (by omega)
      · rw [if_neg hv]
        exact h3 v s (by omega)
    · rw [process_buttons_cons, check_rate_limit_pos act u t hfull]
      have hassoc : Dprev ++ (u, t) ::
            (process_buttons
              (⟨fun v => if v == u then (act u).filter (fun s => decide (t - s < 60)) ++ [t]
                         else act v, 15, 60⟩ : RateLimiter) rest).2
          = (Dprev ++ [(u, t)]) ++
            (process_buttons
              (⟨fun v => if v == u then (act u).filter (fun s => decide (t - s < 60)) ++ [t]
                         else act v, 15, 60⟩ : RateLimiter) rest).2 := by
        simp
      show SpacedOut (Dprev ++ (u, t) :: _)
      rw [hassoc]
      apply ih _ (Dprev ++ [(u, t)]) t hrest_ge hrest_pw
      · intro v s hs
        by_cases hv : (v == u) = true
        · have hvu : v = u := beq_iff_eq.mp hv
          rw [hvu, user_times_append_self, if_pos (beq_self_eq_true u)]
          rw [List.count_append, List.count_append,
              @List.count_filter Int _ _ (fun x => decide (t - x < 60)) s (act u)
                (decide_eq_true hs)]
          have := h3 u s (by omega)
          omega
        · have hv' : (u == v) = false := by
            rw [beq_eq_false_iff_ne]
            intro hne
            rw [hne] at hv
            exact hv (beq_self_eq_true v)
          rw [user_times_append_other _ _ _ hv', if_neg hv]
          exact h3 v s (by omega)
      · apply spacedOut_snoc h4
        rw [length_filter_user_window]
        have hsub := window_subperm Dprev u t tau act htau_t h3
        have := hsub.length_le
        omega

/-- C9: with the rate limiter enabled, `check_rate_limit` refuses (returns
`false`, so the button handler alerts and dispatches nothing) exactly when
the user already has at least 15 recorded timestamps younger than 60
seconds; a permitted press appends the current timestamp to the user's
record; and over any time-ordered press sequence starting from the initial
limiter, every user has at most 15 dispatched presses inside any sliding
60-second window `(w - 60, w]`. -/
theorem c9_rate_limiter_window (act : String → List Int) (u : String) (now : Int)
    (reqs : List (String × Int))
    (hmono : reqs.Pairwise (fun p q => p.2 ≤ q.2)) :
    ((check_rate_limit ⟨act, 15, 60⟩ u now).1 = false ↔
        15 ≤ ((act u).filter (fun s => decide (now - s < 60))).length)
    ∧ ((check_rate_limit ⟨act, 15, 60⟩ u now).1 = true →
        (check_rate_limit ⟨act, 15, 60⟩ u now).2.user_activity u =
          (act u).filter (fun s => decide (now - s < 60)) ++ [now])
    ∧ ∀ v w, window_count (process_buttons RateLimiter.start reqs).2 v w ≤ 15 := by
  refine ⟨?_, ?_, ?_⟩
  · by_cases h : 15 ≤ ((act u).filter (fun s => decide (now - s < 60))).length
    · rw [check_rate_limit_neg act u now h]
      simpa using h
    · rw [check_rate_limit_pos act u now h]
      simpa using h
  · intro htrue
    by_cases h : 15 ≤ ((act u).filter (fun s => decide (now - s < 60))).length
    · rw [check_rate_limit_neg act u now h] at htrue
      exact absurd htrue (by simp)
    · rw [check_rate_limit_pos act u now h]
      simp
  · intro v w
    cases reqs with
    | nil => simp [process_buttons, window_count]
    | cons r rest =>
      have hτ : ∀ p ∈ r :: rest, r.2 ≤ p.2 := by
        intro p hp
        rcases List.mem_cons.mp hp with rfl | hp'
        · exact le_refl _
        · exact (List.pairwise_cons.mp hmono).1 p hp'
      have hcnt : ∀ (x : String) (s : Int), r.2 - s < 60 →
          (user_times [] x).count s ≤ (((fun _ => []) : String → List Int) x).count s := by
        intro x s _
        simp [user_times]
      have hsp := process_spacedOut (r :: rest) (fun _ => []) [] r.2 hτ hmono hcnt spacedOut_nil
      rw [List.nil_append] at hsp
      exact window_count_le_of_spacedOut _ hsp v w

/-- Witness for `c9_rate_limiter_window` on a single press at time 0 from the
initial limiter state. -/
theorem c9_rate_limiter_window_witness :
    window_count (process_buttons RateLimiter.start [("a", 0)]).2 "a" 0 ≤ 15
    ∧ ((check_rate_limit ⟨fun _ => [], 15, 60⟩ "a" 0).1 = false ↔
        15 ≤ ((([] : List Int)).filter (fun s => decide ((0 : Int) - s < 60))).length) :=
  ⟨(c9_rate_limiter_window (fun _ => []) "a" 0 [("a", 0)] (by simp)).2.2 "a" 0,
   (c9_rate_limiter_window (fun _ => []) "a" 0 [("a", 0)] (by simp)).1⟩

end WiseFlix
